import Mathlib

/-!
# go-net-upnp: SSDP multicast server, sample device listener, dump front ends

Shallow embedding of

* `src/net/upnp/ssdp/multicast_server.go` (`MulticastServer.Start`, `MulticastServer.Stop`,
  `handleMulticastConnection`),
* `src/net/upnp/action.go` (`Action`, `NewAction`),
* `src/net/upnp/sample_device_test.go` (`sampleDevice.ActionRequestReceived`),
* `example/ctrlpoint/upnpdump/upnpdump.go` and `example/ctrlpoint/upnpgwdump/upnpgwdump.go`
  (the option handling at the head of `main`).

Effects (socket reads, logging, listener calls, starting a goroutine, installing the shared
logger) are made explicit: a function returns the events it produced or the state it left.
-/

namespace upnp

/-- Go `error` value, kept as its message; `Option Error` is an `error` that may be `nil`. -/
abbrev Error := String

namespace ssdp

/-- Datagram handed out by `Socket.Read`. The receive loop reads `len(ssdpPkt.Bytes)` and
passes the packet on to `NewRequestFromPacket`; bytes are kept as naturals. -/
structure Packet where
  Bytes : List Nat
  deriving DecidableEq, Repr

/-- The pair `(ssdpPkt, err)` that one call of `self.Socket.Read()` returns. -/
structure ReadResult where
  pkt : Packet
  err : Option Error
  deriving DecidableEq, Repr

/-- The message codec used by the receive loop. `NewRequestFromPacket`, `IsNotifyRequest` and
`IsSearchRequest` live in files that are not among the sources, so they are parameters:
`NewRequestFromPacket` returns the Go pair `(*Request, error)`, the two methods are boolean
tests on the returned request. -/
structure Codec (Request : Type) where
  NewRequestFromPacket : Packet → Request × Option Error
  IsNotifyRequest : Request → Bool
  IsSearchRequest : Request → Bool

/-- The struct `MulticastServer`: a socket and a listener that may be `nil`. -/
structure MulticastServer (Socket Listener : Type) where
  Socket : Socket
  Listener : Option Listener

/-- `NewMulticastServer`: a fresh socket and no listener. -/
def NewMulticastServer {Socket Listener : Type} (NewHTTPMUSocket : Socket) :
    MulticastServer Socket Listener :=
  { Socket := NewHTTPMUSocket, Listener := none }

/-- What the receive loop does that is visible outside it, in program order: a `Socket.Read`
call that returned, a call of `log.Error`, a call of `NewRequestFromPacket`, and the two
listener callbacks. -/
inductive Event (Request Listener : Type) where
  | Read
  | LogError (err : Error)
  | NewRequestFromPacket (pkt : Packet)
  | DeviceNotifyReceived (listener : Listener) (ssdpReq : Request)
  | DeviceSearchReceived (listener : Listener) (ssdpReq : Request)
  deriving DecidableEq, Repr

/-- Where the receive loop stands once the given read results are used up: it left the `for`
through `break`, or it is inside the next `Socket.Read` call, which has not returned. -/
inductive LoopState where
  | returned
  | blockedInRead
  deriving DecidableEq, Repr

/-- The listener callbacks selected by the `switch` of the receive loop for one request: the
first case that holds is taken, a request matching no case selects nothing. -/
def dispatch {Request Listener : Type} (codec : Codec Request) (listener : Listener)
    (ssdpReq : Request) : List (Event Request Listener) :=
  if codec.IsNotifyRequest ssdpReq then [Event.DeviceNotifyReceived listener ssdpReq]
  else if codec.IsSearchRequest ssdpReq then [Event.DeviceSearchReceived listener ssdpReq]
  else []

/-- `handleMulticastConnection`. The results of the successive `self.Socket.Read()` calls are
the list argument; the `for` loop is the recursion over it. A read error is logged and breaks
the loop; an empty datagram goes straight to the next read; otherwise, when a listener is set,
the packet is parsed (only the request of the pair is kept, as `ssdpReq, _ :=` does) and the
request is dispatched. The result is the events in order and the state of the loop. -/
def handleMulticastConnection {Socket Request Listener : Type} (codec : Codec Request)
    (self : MulticastServer Socket Listener) :
    List ReadResult → List (Event Request Listener) × LoopState
  | [] => ([], LoopState.blockedInRead)
  | r :: rest =>
    match r.err with
    | some err => ([Event.Read, Event.LogError err], LoopState.returned)
    | none =>
      if r.pkt.Bytes.length ≤ 0 then
        let next := handleMulticastConnection codec self rest
        (Event.Read :: next.1, next.2)
      else
        match self.Listener with
        | some listener =>
          let ssdpReq := (codec.NewRequestFromPacket r.pkt).1
          let next := handleMulticastConnection codec self rest
          (Event.Read :: Event.NewRequestFromPacket r.pkt ::
            (dispatch codec listener ssdpReq ++ next.1), next.2)
        | none =>
          let next := handleMulticastConnection codec self rest
          (Event.Read :: next.1, next.2)

/-- The two socket operations that `Start` and `Stop` call. `HTTPMUSocket` is not among the
sources, so they are parameters; each returns the socket it leaves and the Go `error`. -/
structure SocketOps (Socket : Type) where
  Bind : Socket → Socket × Option Error
  Close : Socket → Socket × Option Error

/-- Outcome of `MulticastServer.Start`: the server as left by `Bind`, the returned error, and
whether `go handleMulticastConnection(self)` was executed. -/
structure StartResult (Socket Listener : Type) where
  server : MulticastServer Socket Listener
  err : Option Error
  launched : Bool

/-- `MulticastServer.Start`: bind; on error return it, otherwise start the receive loop and
return `nil`. -/
def MulticastServer.Start {Socket Listener : Type} (ops : SocketOps Socket)
    (self : MulticastServer Socket Listener) : StartResult Socket Listener :=
  let bound := ops.Bind self.Socket
  match bound.2 with
  | some err => { server := { self with Socket := bound.1 }, err := some err, launched := false }
  | none => { server := { self with Socket := bound.1 }, err := none, launched := true }

/-- `MulticastServer.Stop`: close the socket; return its error if there is one, else `nil`. -/
def MulticastServer.Stop {Socket Listener : Type} (ops : SocketOps Socket)
    (self : MulticastServer Socket Listener) : MulticastServer Socket Listener × Option Error :=
  let closed := ops.Close self.Socket
  match closed.2 with
  | some err => ({ self with Socket := closed.1 }, some err)
  | none => ({ self with Socket := closed.1 }, none)

/-- Modelled from the spec: the transport socket `HTTPMUSocket` with its `Bind` and `Close`
is missing from the sources. The spec gives the server the states `Stopped` and `Listening`
(`Listening` on a successful bind), lets a bind fail (`BindFailure`), and has `Stop` release
the socket. `bindFault` and `closeFault` are the errors, if any, with which the network stack
answers a bind of the multicast address and a close of the open connection. -/
structure HTTPMUSocket where
  Listening : Bool
  bindFault : Option Error
  closeFault : Option Error
  deriving DecidableEq, Repr

/-- Modelled from the spec: `NewHTTPMUSocket` is missing from the sources; a new socket is
not bound. -/
def NewHTTPMUSocket (bindFault closeFault : Option Error) : HTTPMUSocket :=
  { Listening := false, bindFault := bindFault, closeFault := closeFault }

/-- Modelled from the spec: `HTTPMUSocket.Bind` is missing from the sources. Binding while
already listening is a double bind and gives the bind error; otherwise the bind succeeds,
and the socket is listening, unless the network stack refuses it. -/
def HTTPMUSocket.Bind (s : HTTPMUSocket) : HTTPMUSocket × Option Error :=
  if s.Listening then (s, some "bind: address already in use")
  else
    match s.bindFault with
    | some err => (s, some err)
    | none => ({ s with Listening := true }, none)

/-- Modelled from the spec: `HTTPMUSocket.Close` is missing from the sources. `Stop` is safe
on a server that is not listening, so closing a socket that is not open does nothing and
gives no error; closing an open socket releases it unless the network stack reports an
error. -/
def HTTPMUSocket.Close (s : HTTPMUSocket) : HTTPMUSocket × Option Error :=
  if s.Listening then
    match s.closeFault with
    | some err => (s, some err)
    | none => ({ s with Listening := false }, none)
  else (s, none)

/-- The socket operations of the modelled `HTTPMUSocket`. -/
def httpmuOps : SocketOps HTTPMUSocket :=
  { Bind := HTTPMUSocket.Bind, Close := HTTPMUSocket.Close }

/-- Whether an event is a call of `log.Error`. -/
def Event.isLogError {Request Listener : Type} : Event Request Listener → Bool
  | Event.LogError _ => true
  | _ => false

/-- Sample codec over requests that are just their method. A datagram that ends in a line
feed is a message, its method taken from the first byte (`N` for `NOTIFY`, `M` for
`M-SEARCH`, the empty method otherwise); any other datagram is malformed and gives the error
with the empty request. -/
def lenientCodec : Codec String :=
  { NewRequestFromPacket := fun pkt =>
      if pkt.Bytes.getLast? = some 10 then
        (if pkt.Bytes.head? = some 78 then "NOTIFY"
          else if pkt.Bytes.head? = some 77 then "M-SEARCH" else "", none)
      else ("", some "malformed message"),
    IsNotifyRequest := fun method => method == "NOTIFY",
    IsSearchRequest := fun method => method == "M-SEARCH" }

/-- Modelled from the spec: the request type of the message codec is missing from the
sources. A discovery request is a method line, a header mapping and a raw payload. -/
structure Message where
  Method : String
  Headers : List (String × String)
  Body : List Nat
  deriving DecidableEq, Repr

/-- Modelled from the spec: `NewRequestFromPacket`, `IsNotifyRequest` and `IsSearchRequest`
are missing from the sources. For the bytes of one message the codec gives a structured
message or a `MalformedMessage` error: the Go pair is the request with a `nil` error, or no
request (`none`, the `nil` pointer) with the error, never both. A request is a notify request
when its method matches the announcement verb and a search request when its method matches
the discovery verb; an unparseable message is dropped, not fatal, so where there is no
request neither test holds. The parser of the wire format and the two verbs are parameters. -/
def specCodec (parse : Packet → Except Error Message) (notifyVerb searchVerb : String) :
    Codec (Option Message) :=
  { NewRequestFromPacket := fun pkt =>
      match parse pkt with
      | Except.ok msg => (some msg, none)
      | Except.error err => (none, some err),
    IsNotifyRequest := fun req =>
      match req with
      | some msg => msg.Method == notifyVerb
      | none => false,
    IsSearchRequest := fun req =>
      match req with
      | some msg => msg.Method == searchVerb
      | none => false }

/-- Sample wire parser: a datagram that ends in a line feed is a message without headers
whose method is taken from the first byte (`N` for `NOTIFY`, `M` for `M-SEARCH`); any other
datagram is malformed. -/
def sampleParse (pkt : Packet) : Except Error Message :=
  if pkt.Bytes.getLast? = some 10 then
    Except.ok { Method := if pkt.Bytes.head? = some 78 then "NOTIFY"
                          else if pkt.Bytes.head? = some 77 then "M-SEARCH" else "",
                Headers := [], Body := [] }
  else Except.error "malformed message"

/-- Sample server: a socket that carries no state and the listener number 7. -/
def sampleServer : MulticastServer Unit Nat :=
  { Socket := (), Listener := some 7 }

/-- Sample datagram starting with `M` and ending in a line feed. -/
def searchDatagram : ReadResult := { pkt := { Bytes := [77, 10] }, err := none }

/-- Sample datagram starting with `N` and ending in a line feed. -/
def notifyDatagram : ReadResult := { pkt := { Bytes := [78, 10] }, err := none }

/-- Sample datagram starting with `N` that does not end in a line feed. -/
def truncatedNotifyDatagram : ReadResult := { pkt := { Bytes := [78, 79] }, err := none }

/-- Sample datagram of length zero. -/
def emptyDatagram : ReadResult := { pkt := { Bytes := [] }, err := none }

/-- Sample read that fails. -/
def failedRead : ReadResult := { pkt := { Bytes := [] }, err := some "socket closed" }

end ssdp

/-! ## Object model and the sample device of `sample_device_test.go` -/

/-- Go `xml.Name`. -/
structure XMLName where
  Space : String
  Local : String
  deriving DecidableEq, Repr

/-- Modelled from the spec: the `Argument` type is missing from the sources. An argument has
a name, a direction, a related state variable name and a current string value; the back
reference to its action is not part of the value. -/
structure Argument where
  Name : String
  Direction : String
  RelatedStateVariable : String
  Value : String
  deriving DecidableEq, Repr

/-- The struct `Action` of `action.go`: `XMLName`, `Name`, `ArgumentList`, and nothing else. -/
structure Action where
  XMLName : XMLName
  Name : String
  ArgumentList : List Argument
  deriving DecidableEq, Repr

/-- `NewAction`: `&Action{}`, every field at its zero value. -/
def NewAction : Action :=
  { XMLName := { Space := "", Local := "" }, Name := "", ArgumentList := [] }

/-- Modelled from the spec: the `Service` type is missing from the sources. A service has a
type, an id, three endpoint URLs and an ordered list of actions. -/
structure Service where
  ServiceType : String
  ServiceId : String
  SCPDURL : String
  ControlURL : String
  EventSubURL : String
  ActionList : List Action
  deriving DecidableEq, Repr

/-- Modelled from the spec: the `Device` type is missing from the sources. A device has a
type, a unique identifier, a friendly name, two URLs and an ordered list of services. -/
structure Device where
  DeviceType : String
  UDN : String
  FriendlyName : String
  LocationURL : String
  PresentationURL : String
  ServiceList : List Service
  deriving DecidableEq, Repr

/-- Position of the first argument of the list that has the given name. -/
def argumentIndex (name : String) : List Argument → Option Nat
  | [] => none
  | arg :: rest =>
    if arg.Name = name then some 0 else (argumentIndex name rest).map (fun i => i + 1)

/-- Modelled from the spec: `Action.GetArgumentByName` is missing from the sources. Argument
names identify an argument within its action: the result is a reference to the first
argument of `ArgumentList` with that name (its position), or the error (`none`) when there
is none. -/
def Action.GetArgumentByName (self : Action) (name : String) : Option Nat :=
  argumentIndex name self.ArgumentList

/-- Reading `arg.Value` through the reference returned by `GetArgumentByName`. -/
def Action.argValue (self : Action) (arg : Nat) : String :=
  match self.ArgumentList.get? arg with
  | some a => a.Value
  | none => ""

/-- Writing `value` into the `Value` field of the argument at a position of the list. -/
def setValueAt (value : String) : Nat → List Argument → List Argument
  | _, [] => []
  | 0, arg :: rest => { arg with Value := value } :: rest
  | i + 1, arg :: rest => arg :: setValueAt value i rest

/-- The assignment `arg.Value = value` through the reference returned by
`GetArgumentByName`. -/
def Action.setArgValue (self : Action) (arg : Nat) (value : String) : Action :=
  { self with ArgumentList := setValueAt value arg self.ArgumentList }

/-- The value of the argument that `GetArgumentByName` finds under a name, if it finds one. -/
def Action.valueOf (self : Action) (name : String) : Option String :=
  (self.GetArgumentByName name).map self.argValue

namespace control

/-- Modelled from the spec: the `control.UPnPError` type is missing from the sources; a
structured error is a numeric code and a description. -/
structure UPnPError where
  Code : Int
  Description : String
  deriving DecidableEq, Repr

end control

/-- What `sample_device_test.go` uses of package `control`, which is not among the sources:
the code constant `ErrorOptionalActionNotImplemented` and `NewUPnPErrorFromCode`. -/
structure ControlPkg where
  ErrorOptionalActionNotImplemented : Int
  NewUPnPErrorFromCode : Int → control.UPnPError

/-- The constant `SetTarget`. -/
def SetTarget : String := "SetTarget"

/-- The constant `GetTarget`. -/
def GetTarget : String := "GetTarget"

/-- The constant `NewTargetValue`. -/
def NewTargetValue : String := "newTargetValue"

/-- The constant `RetTargetValue`. -/
def RetTargetValue : String := "RetTargetValue"

/-- The struct `sampleDevice`: the embedded device and the `Target` state. -/
structure sampleDevice where
  Device : Device
  Target : String
  deriving DecidableEq, Repr

/-- Result of `sampleDevice.ActionRequestReceived`: the device and the action as the call
leaves them, and the returned `*control.UPnPError` (`none` for `nil`). -/
structure ActionResult where
  device : sampleDevice
  action : Action
  err : Option control.UPnPError
  deriving DecidableEq, Repr

/-- `sampleDevice.ActionRequestReceived`: the `switch` on the action name. `SetTarget` copies
the value of `newTargetValue` into `Target`, `GetTarget` copies `Target` into
`RetTargetValue`, both only when the argument is found and both returning `nil`; every other
name returns the error built from `ErrorOptionalActionNotImplemented`. -/
def sampleDevice.ActionRequestReceived (ctl : ControlPkg) (self : sampleDevice)
    (action : Action) : ActionResult :=
  if action.Name = SetTarget then
    match action.GetArgumentByName NewTargetValue with
    | some arg =>
      { device := { self with Target := action.argValue arg }, action := action, err := none }
    | none => { device := self, action := action, err := none }
  else if action.Name = GetTarget then
    match action.GetArgumentByName RetTargetValue with
    | some arg =>
      { device := self, action := action.setArgValue arg self.Target, err := none }
    | none => { device := self, action := action, err := none }
  else
    { device := self, action := action,
      err := some (ctl.NewUPnPErrorFromCode ctl.ErrorOptionalActionNotImplemented) }

/-- The three actions declared by `switchPowerServiceDescription`. -/
def switchPowerActions : List Action :=
  [ { XMLName := { Space := "", Local := "action" }, Name := "SetTarget",
      ArgumentList := [ { Name := "newTargetValue", Direction := "in",
                          RelatedStateVariable := "Target", Value := "" } ] },
    { XMLName := { Space := "", Local := "action" }, Name := "GetTarget",
      ArgumentList := [ { Name := "RetTargetValue", Direction := "out",
                          RelatedStateVariable := "Target", Value := "" } ] },
    { XMLName := { Space := "", Local := "action" }, Name := "GetStatus",
      ArgumentList := [ { Name := "ResultStatus", Direction := "out",
                          RelatedStateVariable := "Status", Value := "" } ] } ]

/-- The `SwitchPower:1` service of `binaryLightDeviceDescription` with the actions of
`switchPowerServiceDescription` loaded, URLs as given. -/
def switchPowerService (scpdURL controlURL eventSubURL : String) : Service :=
  { ServiceType := "urn:schemas-upnp-org:service:SwitchPower:1",
    ServiceId := "urn:upnp-org:serviceId:SwitchPower.1",
    SCPDURL := scpdURL, ControlURL := controlURL, EventSubURL := eventSubURL,
    ActionList := switchPowerActions }

/-- Sample `control` package: the code 602 with its description. -/
def sampleControl : ControlPkg :=
  { ErrorOptionalActionNotImplemented := 602,
    NewUPnPErrorFromCode := fun code =>
      { Code := code,
        Description := if code = 602 then "Optional Action Not Implemented" else "" } }

/-- Sample device state: no services listed, `Target` as given. -/
def sampleDeviceWith (target : String) : sampleDevice :=
  { Device := { DeviceType := "", UDN := "", FriendlyName := "", LocationURL := "",
                PresentationURL := "", ServiceList := [] },
    Target := target }

/-- The `SetTarget` action of the sample service with `newTargetValue` set to a value. -/
def setTargetRequest (value : String) : Action :=
  { XMLName := { Space := "", Local := "action" }, Name := "SetTarget",
    ArgumentList := [ { Name := "newTargetValue", Direction := "in",
                        RelatedStateVariable := "Target", Value := value } ] }

/-- The `GetTarget` action of the sample service, its out argument still empty. -/
def getTargetRequest : Action :=
  { XMLName := { Space := "", Local := "action" }, Name := "GetTarget",
    ArgumentList := [ { Name := "RetTargetValue", Direction := "out",
                        RelatedStateVariable := "Target", Value := "" } ] }

/-- The `GetStatus` action of the sample service. -/
def getStatusRequest : Action :=
  { XMLName := { Space := "", Local := "action" }, Name := "GetStatus",
    ArgumentList := [ { Name := "ResultStatus", Direction := "out",
                        RelatedStateVariable := "Status", Value := "" } ] }

end upnp

/-! ## The option handling of the two dump front ends -/

namespace flag

/-- The command line flag set of Go package `flag`, reduced to integer flags: the defined
flags with the value each `*int` currently points to. -/
abbrev FlagSet := List (String × Int)

/-- The flag set before any flag is defined. -/
def CommandLine : FlagSet := []

/-- `flag.Int(name, value, usage)`: define the flag with its default value. The returned
pointer is the flag name; it points to the default until a parse stores another value. -/
def defineInt (fs : FlagSet) (name : String) (value : Int) : FlagSet :=
  (name, value) :: fs

/-- Dereferencing the pointer returned by `flag.Int`. -/
def deref (fs : FlagSet) (name : String) : Int :=
  match fs.lookup name with
  | some v => v
  | none => 0

end flag

/-- What the front ends use of package `log`, which is not among the sources: the level
constant `LoggerLevelTrace` and the constructor `NewStdoutLogger`. -/
structure LogPkg (Logger : Type) where
  LoggerLevelTrace : Int
  NewStdoutLogger : Int → Logger

/-- State of a front end at the point where it starts the control point: whether the process
already exited inside `flag.Parse`, and the shared logger installed by `log.SetSharedLogger`
(`none` when none was installed). -/
structure Startup (Logger : Type) where
  exited : Bool
  sharedLogger : Option Logger

/-- Head of `main` in `upnpdump.go`, up to the start of the control point: the flag `v` is
defined with default 0 and read at once; `flag.Parse` is not called, so the command line
`args` is never looked at. -/
def upnpdump.main {Logger : Type} (log : LogPkg Logger) (_args : List String) :
    Startup Logger :=
  let flags := flag.defineInt flag.CommandLine "v" 0
  let verbose := flag.deref flags "v"
  if 0 < verbose then
    { exited := false, sharedLogger := some (log.NewStdoutLogger log.LoggerLevelTrace) }
  else
    { exited := false, sharedLogger := none }

/-- Head of `main` in `upnpgwdump.go`, up to the start of the control point: the flag `v` is
defined with default 0, `flag.Parse()` processes the command line (`Parse` is the standard
library function, a parameter; `none` when it ends the process), then the flag is read. -/
def upnpgwdump.main {Logger : Type} (log : LogPkg Logger)
    (Parse : flag.FlagSet → List String → Option flag.FlagSet) (args : List String) :
    Startup Logger :=
  let flags := flag.defineInt flag.CommandLine "v" 0
  match Parse flags args with
  | none => { exited := true, sharedLogger := none }
  | some flags =>
    let verbose := flag.deref flags "v"
    if 0 < verbose then
      { exited := false, sharedLogger := some (log.NewStdoutLogger log.LoggerLevelTrace) }
    else
      { exited := false, sharedLogger := none }

/-! ## Theorems: the multicast server -/

namespace upnp

namespace ssdp

section loop

variable {Socket Request Listener : Type}

/-- One iteration whose read returns an error: the error is logged and the loop is left. -/
theorem handleMulticastConnection_cons_error (codec : Codec Request)
    (self : MulticastServer Socket Listener) (r : ReadResult) (rest : List ReadResult)
    (e : Error) (he : r.err = some e) :
    handleMulticastConnection codec self (r :: rest)
      = ([Event.Read, Event.LogError e], LoopState.returned) := by
  simp [handleMulticastConnection, he]

/-- One iteration whose read returns an empty datagram. -/
theorem handleMulticastConnection_cons_empty (codec : Codec Request)
    (self : MulticastServer Socket Listener) (r : ReadResult) (rest : List ReadResult)
    (hr : r.err = none) (hlen : r.pkt.Bytes.length ≤ 0) :
    handleMulticastConnection codec self (r :: rest)
      = (Event.Read :: (handleMulticastConnection codec self rest).1,
         (handleMulticastConnection codec self rest).2) := by
  simp only [handleMulticastConnection, hr]
  rw [if_pos hlen]

/-- One iteration whose read returns a non-empty datagram, with a listener set. -/
theorem handleMulticastConnection_cons_listener (codec : Codec Request)
    (self : MulticastServer Socket Listener) (listener : Listener)
    (hl : self.Listener = some listener) (r : ReadResult) (rest : List ReadResult)
    (hr : r.err = none) (hlen : 0 < r.pkt.Bytes.length) :
    handleMulticastConnection codec self (r :: rest)
      = (Event.Read :: Event.NewRequestFromPacket r.pkt ::
          (dispatch codec listener (codec.NewRequestFromPacket r.pkt).1
            ++ (handleMulticastConnection codec self rest).1),
         (handleMulticastConnection codec self rest).2) := by
  simp only [handleMulticastConnection, hr, hl]
  rw [if_neg (Nat.not_le.mpr hlen)]

/-- One iteration whose read returns a non-empty datagram, with no listener set. -/
theorem handleMulticastConnection_cons_nolistener (codec : Codec Request)
    (self : MulticastServer Socket Listener)
    (hl : self.Listener = none) (r : ReadResult) (rest : List ReadResult)
    (hr : r.err = none) (hlen : 0 < r.pkt.Bytes.length) :
    handleMulticastConnection codec self (r :: rest)
      = (Event.Read :: (handleMulticastConnection codec self rest).1,
         (handleMulticastConnection codec self rest).2) := by
  simp only [handleMulticastConnection, hr, hl]
  rw [if_neg (Nat.not_le.mpr hlen)]

/-- Every iteration whose read succeeds contributes its own events and hands over to the
loop on the remaining reads. -/
theorem handleMulticastConnection_cons_ok (codec : Codec Request)
    (self : MulticastServer Socket Listener) (r : ReadResult) (rest : List ReadResult)
    (hr : r.err = none) :
    handleMulticastConnection codec self (r :: rest)
      = ((handleMulticastConnection codec self [r]).1
          ++ (handleMulticastConnection codec self rest).1,
         (handleMulticastConnection codec self rest).2) := by
  by_cases hlen : r.pkt.Bytes.length ≤ 0
  · rw [handleMulticastConnection_cons_empty codec self r rest hr hlen,
      handleMulticastConnection_cons_empty codec self r [] hr hlen]
    rfl
  · have hpos : 0 < r.pkt.Bytes.length := Nat.not_le.mp hlen
    cases hl : self.Listener with
    | none =>
      rw [handleMulticastConnection_cons_nolistener codec self hl r rest hr hpos,
        handleMulticastConnection_cons_nolistener codec self hl r [] hr hpos]
      rfl
    | some listener =>
      rw [handleMulticastConnection_cons_listener codec self listener hl r rest hr hpos,
        handleMulticastConnection_cons_listener codec self listener hl r [] hr hpos]
      simp [handleMulticastConnection]

/-- While no read fails the loop keeps going: the run over `pre ++ rest` is the events of the
run over `pre` followed by the run over `rest`. -/
theorem handleMulticastConnection_append (codec : Codec Request)
    (self : MulticastServer Socket Listener) (pre rest : List ReadResult)
    (hpre : ∀ x ∈ pre, x.err = none) :
    handleMulticastConnection codec self (pre ++ rest)
      = ((handleMulticastConnection codec self pre).1
          ++ (handleMulticastConnection codec self rest).1,
         (handleMulticastConnection codec self rest).2) := by
  induction pre with
  | nil => simp [handleMulticastConnection]
  | cons r pre ih =>
    have hr : r.err = none := hpre r (List.mem_cons_self _ _)
    have ih2 := ih (fun x hx => hpre x (List.mem_cons_of_mem _ hx))
    rw [List.cons_append, handleMulticastConnection_cons_ok codec self r (pre ++ rest) hr,
      handleMulticastConnection_cons_ok codec self r pre hr, ih2]
    simp

/-- The callbacks selected for a request are listener calls, never `log.Error`. -/
theorem dispatch_no_logError (codec : Codec Request) (listener : Listener) (q : Request) :
    ∀ ev ∈ dispatch codec listener q, ev.isLogError = false := by
  intro ev hev
  unfold dispatch at hev
  split at hev
  · simp only [List.mem_singleton] at hev; subst hev; rfl
  · split at hev
    · simp only [List.mem_singleton] at hev; subst hev; rfl
    · simp at hev

/-- As long as no read fails nothing is passed to `log.Error` and the loop does not return. -/
theorem handleMulticastConnection_no_error (codec : Codec Request)
    (self : MulticastServer Socket Listener) (pre : List ReadResult)
    (hpre : ∀ x ∈ pre, x.err = none) :
    (∀ ev ∈ (handleMulticastConnection codec self pre).1, ev.isLogError = false)
      ∧ (handleMulticastConnection codec self pre).2 = LoopState.blockedInRead := by
  induction pre with
  | nil => simp [handleMulticastConnection]
  | cons r pre ih =>
    have hr : r.err = none := hpre r (List.mem_cons_self _ _)
    have ih2 := ih (fun x hx => hpre x (List.mem_cons_of_mem _ hx))
    by_cases hlen : r.pkt.Bytes.length ≤ 0
    · rw [handleMulticastConnection_cons_empty codec self r pre hr hlen]
      refine ⟨?_, ih2.2⟩
      intro ev hev
      simp only [List.mem_cons] at hev
      rcases hev with rfl | hev
      · rfl
      · exact ih2.1 ev hev
    · have hpos : 0 < r.pkt.Bytes.length := Nat.not_le.mp hlen
      cases hl : self.Listener with
      | none =>
        rw [handleMulticastConnection_cons_nolistener codec self hl r pre hr hpos]
        refine ⟨?_, ih2.2⟩
        intro ev hev
        simp only [List.mem_cons] at hev
        rcases hev with rfl | hev
        · rfl
        · exact ih2.1 ev hev
      | some listener =>
        rw [handleMulticastConnection_cons_listener codec self listener hl r pre hr hpos]
        refine ⟨?_, ih2.2⟩
        intro ev hev
        simp only [List.mem_cons, List.mem_append] at hev
        rcases hev with rfl | rfl | hev | hev
        · rfl
        · rfl
        · exact dispatch_no_logError codec listener _ ev hev
        · exact ih2.1 ev hev

/-- The two tests of the sample codec never hold together. -/
theorem lenientCodec_exclusive (q : String) :
    ¬ (lenientCodec.IsNotifyRequest q = true ∧ lenientCodec.IsSearchRequest q = true) := by
  rintro ⟨h1, h2⟩
  simp only [lenientCodec, beq_iff_eq] at h1 h2
  rw [h1] at h2
  exact absurd h2 (by decide)

/-- C1. In the receive loop with a registered listener, a non-empty datagram that is read
(after reads that all succeeded) is parsed and classified: a notify request goes to
`DeviceNotifyReceived`, a search request to `DeviceSearchReceived`, a request that is neither
reaches no handler; in each case the loop goes on with the following reads. The two tests
come from the codec and are taken to exclude each other, as tests of the one method of a
request do. -/
theorem handleMulticastConnection_classifies (codec : Codec Request)
    (self : MulticastServer Socket Listener) (listener : Listener)
    (hl : self.Listener = some listener)
    (hexcl : ∀ q, ¬ (codec.IsNotifyRequest q = true ∧ codec.IsSearchRequest q = true))
    (pre post : List ReadResult) (r : ReadResult)
    (hpre : ∀ x ∈ pre, x.err = none) (hr : r.err = none) (hlen : 0 < r.pkt.Bytes.length) :
    (codec.IsNotifyRequest (codec.NewRequestFromPacket r.pkt).1 = true →
      (handleMulticastConnection codec self (pre ++ r :: post)).1
        = (handleMulticastConnection codec self pre).1
          ++ [Event.Read, Event.NewRequestFromPacket r.pkt,
              Event.DeviceNotifyReceived listener (codec.NewRequestFromPacket r.pkt).1]
          ++ (handleMulticastConnection codec self post).1)
    ∧ (codec.IsSearchRequest (codec.NewRequestFromPacket r.pkt).1 = true →
      (handleMulticastConnection codec self (pre ++ r :: post)).1
        = (handleMulticastConnection codec self pre).1
          ++ [Event.Read, Event.NewRequestFromPacket r.pkt,
              Event.DeviceSearchReceived listener (codec.NewRequestFromPacket r.pkt).1]
          ++ (handleMulticastConnection codec self post).1)
    ∧ (codec.IsNotifyRequest (codec.NewRequestFromPacket r.pkt).1 = false →
        codec.IsSearchRequest (codec.NewRequestFromPacket r.pkt).1 = false →
      (handleMulticastConnection codec self (pre ++ r :: post)).1
        = (handleMulticastConnection codec self pre).1
          ++ [Event.Read, Event.NewRequestFromPacket r.pkt]
          ++ (handleMulticastConnection codec self post).1)
    ∧ (handleMulticastConnection codec self (pre ++ r :: post)).2
        = (handleMulticastConnection codec self post).2 := by
  rw [handleMulticastConnection_append codec self pre (r :: post) hpre,
    handleMulticastConnection_cons_listener codec self listener hl r post hr hlen]
  refine ⟨?_, ?_, ?_, rfl⟩
  · intro hn
    simp [dispatch, hn]
  · intro hs
    have hn : codec.IsNotifyRequest (codec.NewRequestFromPacket r.pkt).1 = false := by
      cases h : codec.IsNotifyRequest (codec.NewRequestFromPacket r.pkt).1 with
      | false => rfl
      | true => exact absurd ⟨h, hs⟩ (hexcl _)
    simp [dispatch, hn, hs]
  · intro hn hs
    simp [dispatch, hn, hs]

/-- Witness of C1: a search datagram, then a notify datagram, then a failing read. -/
theorem handleMulticastConnection_classifies_witness :
    (handleMulticastConnection lenientCodec sampleServer
        ([searchDatagram] ++ notifyDatagram :: [failedRead])).1
      = (handleMulticastConnection lenientCodec sampleServer [searchDatagram]).1
          ++ [Event.Read, Event.NewRequestFromPacket notifyDatagram.pkt,
              Event.DeviceNotifyReceived 7 "NOTIFY"]
          ++ (handleMulticastConnection lenientCodec sampleServer [failedRead]).1 :=
  (handleMulticastConnection_classifies lenientCodec sampleServer 7 rfl lenientCodec_exclusive
    [searchDatagram] [failedRead] notifyDatagram (by decide) rfl (by decide)).1 (by decide)

/-- With the codec as modelled from the spec, a parse that returns an error returns no
request. -/
theorem specCodec_error_no_request (parse : Packet → Except Error Message)
    (notifyVerb searchVerb : String) (pkt : Packet) (e : Error)
    (hfail : ((specCodec parse notifyVerb searchVerb).NewRequestFromPacket pkt).2 = some e) :
    ((specCodec parse notifyVerb searchVerb).NewRequestFromPacket pkt).1 = none := by
  unfold specCodec at hfail ⊢
  cases h : parse pkt with
  | ok msg => simp [h] at hfail
  | error err => simp [h]

/-- C2. With the codec as modelled from the spec, a non-empty datagram that is read (after
reads that all succeeded) and whose parse by `NewRequestFromPacket` fails is skipped: with a
listener set it contributes the read and the parse and no call of `DeviceNotifyReceived` or
`DeviceSearchReceived`, with none set it contributes the read alone; in both cases the loop
goes on with the following reads. -/
theorem handleMulticastConnection_skips_malformed
    (parse : Packet → Except Error Message) (notifyVerb searchVerb : String)
    (self : MulticastServer Socket Listener)
    (pre post : List ReadResult) (r : ReadResult) (e : Error)
    (hpre : ∀ x ∈ pre, x.err = none) (hr : r.err = none) (hlen : 0 < r.pkt.Bytes.length)
    (hfail : ((specCodec parse notifyVerb searchVerb).NewRequestFromPacket r.pkt).2 = some e) :
    handleMulticastConnection (specCodec parse notifyVerb searchVerb) self (pre ++ r :: post)
      = ((handleMulticastConnection (specCodec parse notifyVerb searchVerb) self pre).1
            ++ (match self.Listener with
                | some _ => [Event.Read, Event.NewRequestFromPacket r.pkt]
                | none => [Event.Read])
            ++ (handleMulticastConnection (specCodec parse notifyVerb searchVerb) self post).1,
         (handleMulticastConnection (specCodec parse notifyVerb searchVerb) self post).2) := by
  have hnone := specCodec_error_no_request parse notifyVerb searchVerb r.pkt e hfail
  rw [handleMulticastConnection_append _ self pre (r :: post) hpre]
  cases hl : self.Listener with
  | none =>
    rw [handleMulticastConnection_cons_nolistener _ self hl r post hr hlen]
    simp
  | some listener =>
    rw [handleMulticastConnection_cons_listener _ self listener hl r post hr hlen, hnone]
    have hd : dispatch (specCodec parse notifyVerb searchVerb) listener none
        = ([] : List (Event (Option Message) Listener)) := by
      simp [dispatch, specCodec]
    rw [hd]
    simp

/-- Witness of C2: a datagram that starts like a notify request but is malformed, read
between a search datagram and a notify datagram; the two well-formed ones are delivered, the
malformed one reaches no handler. -/
theorem handleMulticastConnection_skips_malformed_witness :
    ((specCodec sampleParse "NOTIFY" "M-SEARCH").NewRequestFromPacket
        truncatedNotifyDatagram.pkt).2 = some "malformed message"
    ∧ handleMulticastConnection (specCodec sampleParse "NOTIFY" "M-SEARCH") sampleServer
        ([searchDatagram] ++ truncatedNotifyDatagram :: [notifyDatagram])
      = ([Event.Read, Event.NewRequestFromPacket searchDatagram.pkt,
          Event.DeviceSearchReceived 7
            (some { Method := "M-SEARCH", Headers := [], Body := [] }),
          Event.Read, Event.NewRequestFromPacket truncatedNotifyDatagram.pkt,
          Event.Read, Event.NewRequestFromPacket notifyDatagram.pkt,
          Event.DeviceNotifyReceived 7
            (some { Method := "NOTIFY", Headers := [], Body := [] })],
         LoopState.blockedInRead) :=
  ⟨by decide,
   (handleMulticastConnection_skips_malformed sampleParse "NOTIFY" "M-SEARCH" sampleServer
      [searchDatagram] [notifyDatagram] truncatedNotifyDatagram "malformed message"
      (by decide) rfl (by decide) (by decide)).trans (by decide)⟩

/-- C3. A datagram of length zero that is read (after reads that all succeeded) produces
nothing but the read itself: no parse, no handler call, for any listener setting; the loop
goes on, and what it does with the following reads is what it does with them anyway. -/
theorem handleMulticastConnection_skips_empty (codec : Codec Request)
    (self : MulticastServer Socket Listener)
    (pre post : List ReadResult) (r : ReadResult)
    (hpre : ∀ x ∈ pre, x.err = none) (hr : r.err = none) (hlen : r.pkt.Bytes.length = 0) :
    handleMulticastConnection codec self (pre ++ r :: post)
      = ((handleMulticastConnection codec self pre).1 ++ [Event.Read]
            ++ (handleMulticastConnection codec self post).1,
         (handleMulticastConnection codec self post).2) := by
  rw [handleMulticastConnection_append codec self pre (r :: post) hpre,
    handleMulticastConnection_cons_empty codec self r post hr (Nat.le_of_eq hlen)]
  simp

/-- Witness of C3: an empty datagram between a search datagram and a notify datagram. -/
theorem handleMulticastConnection_skips_empty_witness :
    handleMulticastConnection lenientCodec sampleServer
        ([searchDatagram] ++ emptyDatagram :: [notifyDatagram])
      = ([Event.Read, Event.NewRequestFromPacket searchDatagram.pkt,
          Event.DeviceSearchReceived 7 "M-SEARCH",
          Event.Read,
          Event.Read, Event.NewRequestFromPacket notifyDatagram.pkt,
          Event.DeviceNotifyReceived 7 "NOTIFY"], LoopState.blockedInRead) :=
  (handleMulticastConnection_skips_empty lenientCodec sampleServer
    [searchDatagram] [notifyDatagram] emptyDatagram (by decide) rfl rfl).trans (by decide)

/-- C4. The first read error ends the receive loop: whatever reads would follow, the run is
the events of the reads before it, then the failing read and one `log.Error` call with that
error, and the loop has returned; that call is the only `log.Error` call of the run. -/
theorem handleMulticastConnection_read_error_ends (codec : Codec Request)
    (self : MulticastServer Socket Listener)
    (pre post : List ReadResult) (r : ReadResult) (e : Error)
    (hpre : ∀ x ∈ pre, x.err = none) (he : r.err = some e) :
    handleMulticastConnection codec self (pre ++ r :: post)
      = ((handleMulticastConnection codec self pre).1 ++ [Event.Read, Event.LogError e],
         LoopState.returned)
    ∧ (handleMulticastConnection codec self (pre ++ r :: post)).1.filter Event.isLogError
      = [Event.LogError e] := by
  have hrun := handleMulticastConnection_append codec self pre (r :: post) hpre
  rw [handleMulticastConnection_cons_error codec self r post e he] at hrun
  refine ⟨hrun, ?_⟩
  rw [hrun]
  have hno := (handleMulticastConnection_no_error codec self pre hpre).1
  have hnil : (handleMulticastConnection codec self pre).1.filter Event.isLogError = [] := by
    rw [List.filter_eq_nil_iff]
    intro ev hev
    rw [hno ev hev]
    exact Bool.false_ne_true
  simp only [List.filter_append, hnil, List.nil_append]
  rfl

/-- Witness of C4: a notify datagram, a failing read, and reads that would have followed. -/
theorem handleMulticastConnection_read_error_ends_witness :
    handleMulticastConnection lenientCodec sampleServer
        ([notifyDatagram] ++ failedRead :: [searchDatagram, notifyDatagram])
      = ([Event.Read, Event.NewRequestFromPacket notifyDatagram.pkt,
          Event.DeviceNotifyReceived 7 "NOTIFY",
          Event.Read, Event.LogError "socket closed"], LoopState.returned) :=
  (handleMulticastConnection_read_error_ends lenientCodec sampleServer
    [notifyDatagram] [searchDatagram, notifyDatagram] failedRead "socket closed"
    (by decide) rfl).1.trans (by decide)

end loop

section lifecycle

variable {Socket Listener : Type}

/-- `Stop` returns exactly the error that the socket's `Close` returns. -/
theorem MulticastServer.Stop_err (ops : SocketOps Socket)
    (self : MulticastServer Socket Listener) :
    (self.Stop ops).2 = (ops.Close self.Socket).2
      ∧ (self.Stop ops).1 = { self with Socket := (ops.Close self.Socket).1 } := by
  unfold MulticastServer.Stop
  cases h : (ops.Close self.Socket).2 <;> simp [h]

/-- `Start` leaves the socket as `Bind` left it and does not touch the listener. -/
theorem MulticastServer.Start_server (ops : SocketOps Socket)
    (self : MulticastServer Socket Listener) :
    (self.Start ops).server = { self with Socket := (ops.Bind self.Socket).1 } := by
  unfold MulticastServer.Start
  cases h : (ops.Bind self.Socket).2 <;> simp [h]

/-- C5. `Start` surfaces the bind error: when `Bind` returns an error, `Start` returns that
error and does not launch the receive loop; when `Bind` succeeds, `Start` returns `nil` and
launches it; so the loop is launched exactly when `Bind` succeeds, and exactly then `Start`
returns `nil`. -/
theorem MulticastServer.Start_surfaces_bind_error (ops : SocketOps Socket)
    (self : MulticastServer Socket Listener) :
    (∀ e, (ops.Bind self.Socket).2 = some e →
        (self.Start ops).err = some e ∧ (self.Start ops).launched = false)
    ∧ ((ops.Bind self.Socket).2 = none →
        (self.Start ops).err = none ∧ (self.Start ops).launched = true)
    ∧ ((self.Start ops).launched = true ↔ (ops.Bind self.Socket).2 = none)
    ∧ ((self.Start ops).err = none ↔ (ops.Bind self.Socket).2 = none) := by
  unfold MulticastServer.Start
  cases h : (ops.Bind self.Socket).2 <;> simp [h]

/-- With the modelled socket, a second `Start` on a server that is listening returns a bind
error and launches no second receive loop. -/
theorem MulticastServer.Start_twice (self : MulticastServer HTTPMUSocket Listener)
    (h : (self.Start httpmuOps).err = none) :
    ((self.Start httpmuOps).server.Start httpmuOps).err ≠ none
      ∧ ((self.Start httpmuOps).server.Start httpmuOps).launched = false := by
  obtain ⟨sock, listener⟩ := self
  obtain ⟨listening, bf, cf⟩ := sock
  cases listening <;> cases bf <;>
    simp_all [MulticastServer.Start, httpmuOps, HTTPMUSocket.Bind]

/-- C6. With the socket as modelled from the spec, `Stop` returns no error on a server that
is already stopped: on any server that is not listening (and it leaves it as it is), on a
server that a first `Stop` has stopped, and on a server whose `Start` failed to bind. -/
theorem MulticastServer.Stop_when_stopped (self : MulticastServer HTTPMUSocket Listener) :
    (self.Socket.Listening = false →
        (self.Stop httpmuOps).2 = none ∧ (self.Stop httpmuOps).1 = self)
    ∧ ((self.Stop httpmuOps).2 = none →
        (self.Stop httpmuOps).1.Socket.Listening = false
          ∧ ((self.Stop httpmuOps).1.Stop httpmuOps).2 = none)
    ∧ (self.Socket.Listening = false → (self.Start httpmuOps).err ≠ none →
        (self.Start httpmuOps).server.Socket.Listening = false
          ∧ ((self.Start httpmuOps).server.Stop httpmuOps).2 = none) := by
  obtain ⟨sock, listener⟩ := self
  obtain ⟨listening, bf, cf⟩ := sock
  cases listening <;> cases bf <;> cases cf <;>
    simp [MulticastServer.Stop, MulticastServer.Start, httpmuOps, HTTPMUSocket.Bind,
      HTTPMUSocket.Close]

end lifecycle

end ssdp

end upnp

/-! ## Theorems: the sample device and the action type -/

namespace upnp

/-- Writing a value does not change which argument a name finds. -/
theorem argumentIndex_setValueAt (name value : String) (i : Nat) (args : List Argument) :
    argumentIndex name (setValueAt value i args) = argumentIndex name args := by
  induction args generalizing i with
  | nil => cases i <;> rfl
  | cons arg rest ih =>
    cases i with
    | zero => simp [setValueAt, argumentIndex]
    | succ i => simp [setValueAt, argumentIndex, ih i]

/-- The argument found under a name holds the value just written at its position. -/
theorem get?_setValueAt_of_argumentIndex (name value : String) (args : List Argument)
    (j : Nat) (h : argumentIndex name args = some j) :
    ∃ a, (setValueAt value j args).get? j = some a ∧ a.Value = value := by
  induction args generalizing j with
  | nil => simp [argumentIndex] at h
  | cons arg rest ih =>
    by_cases hn : arg.Name = name
    · simp only [argumentIndex, hn, if_true, Option.some.injEq] at h
      subst h
      exact ⟨{ arg with Value := value }, rfl, rfl⟩
    · simp only [argumentIndex, hn, if_false] at h
      cases hk : argumentIndex name rest with
      | none => simp [hk] at h
      | some i =>
        rw [hk] at h
        simp only [Option.map, Option.some.injEq] at h
        subst h
        obtain ⟨a, ha, hv⟩ := ih i hk
        exact ⟨a, by simpa [setValueAt] using ha, hv⟩

/-- After `arg.Value = value` through the reference found under a name, the value found under
that name is `value`. -/
theorem Action.valueOf_setArgValue (action : Action) (name value : String) (j : Nat)
    (h : action.GetArgumentByName name = some j) :
    (action.setArgValue j value).valueOf name = some value := by
  unfold Action.GetArgumentByName at h
  obtain ⟨a, ha, hv⟩ := get?_setValueAt_of_argumentIndex name value action.ArgumentList j h
  simp only [Action.valueOf, Action.GetArgumentByName, Action.setArgValue,
    argumentIndex_setValueAt, h, Option.map_some]
  have ha2 : (setValueAt value j action.ArgumentList)[j]? = some a := by
    simpa using ha
  simp [Action.argValue, ha2, hv]

/-- C7. For every string `v`: dispatching a `SetTarget` action whose argument
`newTargetValue` has value `v`, then a `GetTarget` action that has an argument
`RetTargetValue`, returns no error both times and leaves the value of `RetTargetValue`
equal to `v`. -/
theorem sampleDevice.SetTarget_then_GetTarget (ctl : ControlPkg) (dev : sampleDevice)
    (setAction getAction : Action) (v : String)
    (hset : setAction.Name = SetTarget) (hv : setAction.valueOf NewTargetValue = some v)
    (hget : getAction.Name = GetTarget)
    (hret : (getAction.GetArgumentByName RetTargetValue).isSome = true) :
    (dev.ActionRequestReceived ctl setAction).err = none
    ∧ ((dev.ActionRequestReceived ctl setAction).device.ActionRequestReceived ctl
          getAction).err = none
    ∧ ((dev.ActionRequestReceived ctl setAction).device.ActionRequestReceived ctl
          getAction).action.valueOf RetTargetValue = some v := by
  have hne : ¬ getAction.Name = SetTarget := by
    rw [hget]; decide
  obtain ⟨i, hi⟩ : ∃ i, setAction.GetArgumentByName NewTargetValue = some i := by
    cases h : setAction.GetArgumentByName NewTargetValue with
    | none => simp [Action.valueOf, h] at hv
    | some i => exact ⟨i, rfl⟩
  have hvi : setAction.argValue i = v := by
    simpa [Action.valueOf, hi] using hv
  obtain ⟨j, hj⟩ : ∃ j, getAction.GetArgumentByName RetTargetValue = some j := by
    cases h : getAction.GetArgumentByName RetTargetValue with
    | none => simp [h] at hret
    | some j => exact ⟨j, rfl⟩
  have h1 : dev.ActionRequestReceived ctl setAction
      = { device := { dev with Target := v }, action := setAction, err := none } := by
    simp [sampleDevice.ActionRequestReceived, hset, hi, hvi]
  rw [h1]
  have h2 : sampleDevice.ActionRequestReceived ctl { dev with Target := v } getAction
      = { device := { dev with Target := v }, action := getAction.setArgValue j v,
          err := none } := by
    unfold sampleDevice.ActionRequestReceived
    rw [if_neg hne, if_pos hget, hj]
  refine ⟨rfl, ?_, ?_⟩
  · rw [h2]
  · rw [h2]
    exact Action.valueOf_setArgValue getAction RetTargetValue v j hj

/-- Witness of C7: the value "1" of the scenario, on the actions of the sample service. -/
theorem sampleDevice.SetTarget_then_GetTarget_witness :
    (((sampleDeviceWith "0").ActionRequestReceived sampleControl
        (setTargetRequest "1")).device.ActionRequestReceived sampleControl
          getTargetRequest).action.valueOf RetTargetValue = some "1" :=
  (sampleDevice.SetTarget_then_GetTarget sampleControl (sampleDeviceWith "0")
    (setTargetRequest "1") getTargetRequest "1" (by decide) (by decide) (by decide)
    (by decide)).2.2

/-- C9. For every action whose name is neither `SetTarget` nor `GetTarget`, the listener
returns the error built from the code `ErrorOptionalActionNotImplemented` and leaves the
device, so its `Target`, and the action, so each argument value, as they were. -/
theorem sampleDevice.other_action_not_implemented (ctl : ControlPkg) (dev : sampleDevice)
    (action : Action) (hset : action.Name ≠ SetTarget) (hget : action.Name ≠ GetTarget) :
    (dev.ActionRequestReceived ctl action).err
        = some (ctl.NewUPnPErrorFromCode ctl.ErrorOptionalActionNotImplemented)
    ∧ (dev.ActionRequestReceived ctl action).device = dev
    ∧ (dev.ActionRequestReceived ctl action).device.Target = dev.Target
    ∧ (dev.ActionRequestReceived ctl action).action = action
    ∧ (dev.ActionRequestReceived ctl action).action.ArgumentList = action.ArgumentList := by
  simp [sampleDevice.ActionRequestReceived, hset, hget]

/-- Witness of C9: the declared action `GetStatus`. -/
theorem sampleDevice.other_action_not_implemented_witness :
    ((sampleDeviceWith "1").ActionRequestReceived sampleControl getStatusRequest).err
        = some { Code := 602, Description := "Optional Action Not Implemented" }
    ∧ ((sampleDeviceWith "1").ActionRequestReceived sampleControl getStatusRequest).device
        = sampleDeviceWith "1" :=
  ⟨(sampleDevice.other_action_not_implemented sampleControl (sampleDeviceWith "1")
      getStatusRequest (by decide) (by decide)).1,
   (sampleDevice.other_action_not_implemented sampleControl (sampleDeviceWith "1")
      getStatusRequest (by decide) (by decide)).2.1⟩

/-- C8, what the code has instead. `NewAction` sets a name and an argument list only, an
`Action` is fixed by its three fields, and the same action value sits in two different
services; so nothing in an `Action` tells the service it belongs to: no function from actions
to services returns, for every service and every action in its list, that service. -/
theorem Action.no_parent_service :
    NewAction = { XMLName := { Space := "", Local := "" }, Name := "", ArgumentList := [] }
    ∧ (∀ a b : Action, a.XMLName = b.XMLName → a.Name = b.Name →
        a.ArgumentList = b.ArgumentList → a = b)
    ∧ setTargetRequest "" ∈ (switchPowerService "/service/scpd/SwitchPower.xml"
        "/service/control/SwitchPower" "/service/event/SwitchPower").ActionList
    ∧ ¬ ∃ ParentService : Action → Service,
        ∀ (service : Service) (action : Action),
          action ∈ service.ActionList → ParentService action = service := by
  refine ⟨rfl, ?_, by decide, ?_⟩
  · intro a b h1 h2 h3
    cases a; cases b
    simp_all
  · rintro ⟨parent, hparent⟩
    have h1 := hparent (switchPowerService "/service/scpd/SwitchPower.xml"
      "/service/control/SwitchPower" "/service/event/SwitchPower") (setTargetRequest "")
      (by decide)
    have h2 := hparent (switchPowerService "" "" "") (setTargetRequest "") (by decide)
    have h3 := h1.symm.trans h2
    exact absurd h3 (by decide)

end upnp

/-! ## Theorems: the front ends -/

/-- C10, what the code does. `upnpdump` never installs a shared logger, whatever its command
line: in particular not for `-v 1`. -/
theorem upnpdump_main_installs_no_logger {Logger : Type} (log : LogPkg Logger) :
    (∀ args : List String,
        (upnpdump.main log args).sharedLogger = none ∧ (upnpdump.main log args).exited = false)
    ∧ (upnpdump.main log ["-v", "1"]).sharedLogger = none := by
  refine ⟨fun args => ⟨?_, ?_⟩, ?_⟩ <;>
    simp [upnpdump.main, flag.defineInt, flag.deref, flag.CommandLine, List.lookup]

/-- The sibling front end `upnpgwdump` installs the trace logger exactly when the parsed
value of `-v` is positive. -/
theorem upnpgwdump_main_installs_logger {Logger : Type} (log : LogPkg Logger)
    (Parse : flag.FlagSet → List String → Option flag.FlagSet) (args : List String)
    (flags : flag.FlagSet)
    (hparse : Parse (flag.defineInt flag.CommandLine "v" 0) args = some flags) :
    (0 < flag.deref flags "v" →
        (upnpgwdump.main log Parse args).sharedLogger
          = some (log.NewStdoutLogger log.LoggerLevelTrace))
    ∧ (¬ 0 < flag.deref flags "v" → (upnpgwdump.main log Parse args).sharedLogger = none) := by
  constructor <;> intro h <;> simp [upnpgwdump.main, hparse, h]
